import Mathlib

/-!
Shallow embedding of `aasist_bridge.py` (repository NPHY): a decision-fusion
deepfake scorer combining an acoustic classifier (real or mock substitute)
with a lexical suspicion analysis of transcript text.

Python floats are modelled by exact rationals (`ℚ`); decimal literals such as
`0.8` denote the exact rational the source text writes.  Randomness
(`np.random.normal`) and the transcendental primitives (`np.sin`, `np.exp`,
`np.pi`, the exponential inside `torch.softmax`) are modelled as explicit
parameters gathered in an `Env` record, so every definition stays executable
and the code structure is preserved verbatim.
-/

/-- Python `needle` is a leading segment of `hay` (on character lists). -/
def leadsWith : List Char → List Char → Bool
  | [], _ => true
  | _ :: _, [] => false
  | a :: as, b :: bs => a == b && leadsWith as bs

/-- Python substring containment on character lists: `occursIn needle hay`
checks whether `needle` occurs contiguously inside `hay`. -/
def occursIn (needle : List Char) : List Char → Bool
  | [] => leadsWith needle []
  | b :: bs => leadsWith needle (b :: bs) || occursIn needle bs

/-- Python `needle in hay` for strings (contiguous substring test). -/
def strIn (needle hay : String) : Bool :=
  occursIn needle.data hay.data

/-- Python `s.endswith(t)`, used only to state the spec property that the
method tag ends with a fixed suffix. -/
def endsWithStr (s t : String) : Bool :=
  leadsWith t.data.reverse s.data.reverse

/-- Python `s.lower()`: lowercase every character. -/
def pyLower (s : String) : String :=
  ⟨s.data.map Char.toLower⟩

/-- Replace every occurrence of `old` by `new`, scanning left to right; the
fuel argument (instantiated with the input length, enough since every step
consumes at least one character for the nonempty separators the source uses)
keeps the recursion structural. -/
def replaceAux (old new : List Char) : Nat → List Char → List Char
  | _, [] => []
  | 0, l => l
  | fuel + 1, c :: cs =>
    if leadsWith old (c :: cs) then
      new ++ replaceAux old new fuel (List.drop (old.length - 1) cs)
    else
      c :: replaceAux old new fuel cs

/-- Python `s.replace(old, new)` (plain substring replacement, not regex). -/
def pyReplace (s old new : String) : String :=
  ⟨replaceAux old.data new.data s.data.length s.data⟩

/-- Split on a separator, scanning left to right; fuel as in `replaceAux`. -/
def splitAux (sep : List Char) : Nat → List Char → List (List Char)
  | _, [] => [[]]
  | 0, l => [l]
  | fuel + 1, c :: cs =>
    if leadsWith sep (c :: cs) then
      [] :: splitAux sep fuel (List.drop (sep.length - 1) cs)
    else
      match splitAux sep fuel cs with
      | [] => [[c]]
      | w :: ws => (c :: w) :: ws

/-- Python `s.split(sep)` with an explicit nonempty separator. -/
def pySplit (s sep : String) : List String :=
  (splitAux sep.data s.data.length s.data).map fun l => ⟨l⟩

/-- The static suspicion lexicon of `AASISTBridge.analyze_text_patterns`
(source lines 209-225): `scam_patterns`, pairs of a pattern and a weight. -/
def scam_patterns : List (String × ℚ) :=
  [ ("microsoft tech support", 0.8),
    ("computer virus", 0.7),
    ("computer.*compromised", 0.7),
    ("irs", 0.8),
    ("tax.*owe", 0.7),
    ("warrant.*arrest", 0.9),
    ("pay.*immediately", 0.6),
    ("bank account", 0.5),
    ("social security", 0.6),
    ("suspicious activity", 0.4),
    ("gift card", 0.6),
    ("remote access", 0.5),
    ("teamviewer", 0.7),
    ("urgent", 0.3),
    ("immediately", 0.3) ]

/-- The authority-impersonation term list (source line 235). -/
def authorities : List String :=
  ["microsoft", "irs", "government", "police", "bank", "fbi"]

/-- Match condition of the pattern loop (source line 231):
`pattern.replace(".*", " ") in text_lower or
 any(word in text_lower for word in pattern.split(".*"))`. -/
def patternMatched (text_lower pat : String) : Bool :=
  strIn (pyReplace pat ".*" " ") text_lower
    || (pySplit pat ".*").any (fun word => strIn word text_lower)

/-- Body of the accumulation loop (source lines 230-232): add the weight when
the pattern matches, else keep the accumulator. -/
def scoreStep (text_lower : String) (acc : ℚ) (pw : String × ℚ) : ℚ :=
  if patternMatched text_lower pw.1 then acc + pw.2 else acc

/-- `AASISTBridge.analyze_text_patterns` (source lines 207-240): lowercase the
text, accumulate weights of matched patterns, add the 0.3 authority bonus when
an authority term occurs, and cap the result at 1.0. -/
def analyze_text_patterns (text : String) : ℚ :=
  let text_lower := pyLower text
  let suspicion_score := scam_patterns.foldl (scoreStep text_lower) 0
  let suspicion_score :=
    if authorities.any (fun auth => strIn auth text_lower) then
      suspicion_score + 0.3
    else
      suspicion_score
  min suspicion_score 1

/-- The fusion formula of source line 149:
`combined_confidence = min(spoof_prob * 0.3 + text_suspicion * 0.7, 1.0)`. -/
def fuseConfidence (spoof_prob text_suspicion : ℚ) : ℚ :=
  min (spoof_prob * 0.3 + text_suspicion * 0.7) 1

/-- The verdict of source line 155: `combined_confidence > 0.5`. -/
def fuseVerdict (confidence : ℚ) : Bool :=
  confidence > 0.5

example : analyze_text_patterns "" = 0 := by decide

/-- All lexicon weights are non-negative. -/
lemma scam_patterns_weights_nonneg : ∀ pw ∈ scam_patterns, 0 ≤ pw.2 := by
  intro pw hm
  fin_cases hm <;> norm_num

/-- One loop step never decreases the accumulator when the weight is
non-negative. -/
lemma scoreStep_ge (tl : String) (acc : ℚ) (pw : String × ℚ) (h : 0 ≤ pw.2) :
    acc ≤ scoreStep tl acc pw := by
  unfold scoreStep
  split
  · linarith
  · exact le_refl acc

/-- The accumulation loop never decreases the accumulator. -/
lemma foldl_scoreStep_ge (tl : String) (l : List (String × ℚ))
    (h : ∀ pw ∈ l, 0 ≤ pw.2) :
    ∀ acc : ℚ, acc ≤ l.foldl (scoreStep tl) acc := by
  induction l with
  | nil => intro acc; simp
  | cons a l ih =>
    intro acc
    rw [List.foldl_cons]
    exact le_trans (scoreStep_ge tl acc a (h a (List.mem_cons_self a l)))
      (ih (fun pw hm => h pw (List.mem_cons_of_mem a hm)) (scoreStep tl acc a))

/-- A matched pattern in the list contributes its full weight to the fold. -/
lemma foldl_scoreStep_mem (tl : String) (l : List (String × ℚ))
    (h : ∀ pw ∈ l, 0 ≤ pw.2) (p : String) (w : ℚ) (hm : (p, w) ∈ l)
    (hmatch : patternMatched tl p = true) :
    ∀ acc : ℚ, acc + w ≤ l.foldl (scoreStep tl) acc := by
  induction l with
  | nil => cases hm
  | cons a l ih =>
    intro acc
    rw [List.foldl_cons]
    rcases List.mem_cons.mp hm with heq | hmem
    · have hstep : scoreStep tl acc a = acc + w := by
        rw [← heq]
        unfold scoreStep
        simp [hmatch]
      rw [hstep]
      exact foldl_scoreStep_ge tl l (fun pw hmm => h pw (List.mem_cons_of_mem a hmm)) (acc + w)
    · have h1 : acc ≤ scoreStep tl acc a :=
        scoreStep_ge tl acc a (h a (List.mem_cons_self a l))
      have h2 := ih (fun pw hmm => h pw (List.mem_cons_of_mem a hmm)) hmem (scoreStep tl acc a)
      linarith

/-- If no pattern matches, the loop leaves the accumulator unchanged. -/
lemma foldl_scoreStep_none (tl : String) (l : List (String × ℚ))
    (hn : ∀ pw ∈ l, patternMatched tl pw.1 = false) :
    ∀ acc : ℚ, l.foldl (scoreStep tl) acc = acc := by
  induction l with
  | nil => intro acc; simp
  | cons a l ih =>
    intro acc
    rw [List.foldl_cons]
    have hstep : scoreStep tl acc a = acc := by
      unfold scoreStep
      simp [hn a (List.mem_cons_self a l)]
    rw [hstep]
    exact ih (fun pw hm => hn pw (List.mem_cons_of_mem a hm)) acc

/-- C1: for spoof_prob and text_suspicion in [0,1], the fused confidence is
exactly `min(spoof_prob * 0.3 + text_suspicion * 0.7, 1.0)` and lies in
[0,1]. -/
theorem C1_fuse_formula_and_range (s t : ℚ) (hs0 : 0 ≤ s) (_hs1 : s ≤ 1)
    (ht0 : 0 ≤ t) (_ht1 : t ≤ 1) :
    fuseConfidence s t = min (s * 0.3 + t * 0.7) 1 ∧
      0 ≤ fuseConfidence s t ∧ fuseConfidence s t ≤ 1 := by
  refine ⟨rfl, ?_, ?_⟩
  · apply le_min _ zero_le_one
    have : (0:ℚ) ≤ s * 0.3 + t * 0.7 := by positivity
    exact this
  · exact min_le_right _ _

theorem C1_fuse_formula_and_range_witness :
    (0 ≤ (1/2 : ℚ)) ∧ ((1/2 : ℚ) ≤ 1) ∧ (0 ≤ (1/4 : ℚ)) ∧ ((1/4 : ℚ) ≤ 1) ∧
      (fuseConfidence (1/2) (1/4) = min ((1/2 : ℚ) * 0.3 + (1/4) * 0.7) 1 ∧
        0 ≤ fuseConfidence (1/2) (1/4) ∧ fuseConfidence (1/2) (1/4) ≤ 1) :=
  ⟨by norm_num, by norm_num, by norm_num, by norm_num,
    C1_fuse_formula_and_range (1/2) (1/4) (by norm_num) (by norm_num)
      (by norm_num) (by norm_num)⟩

/-- C2: the verdict is true iff the confidence is strictly greater than 0.5,
and a confidence of exactly 0.5 yields false. -/
theorem C2_verdict_strict (c : ℚ) :
    (fuseVerdict c = true ↔ 0.5 < c) ∧ fuseVerdict 0.5 = false := by
  constructor
  · unfold fuseVerdict
    exact decide_eq_true_iff
  · unfold fuseVerdict
    norm_num

/-- C4: for every input text the suspicion score lies in [0,1]. -/
theorem C4_analyze_range (text : String) :
    0 ≤ analyze_text_patterns text ∧ analyze_text_patterns text ≤ 1 := by
  unfold analyze_text_patterns
  constructor
  · apply le_min _ zero_le_one
    have h0 : (0:ℚ) ≤ scam_patterns.foldl (scoreStep (pyLower text)) 0 :=
      foldl_scoreStep_ge (pyLower text) scam_patterns scam_patterns_weights_nonneg 0
    split
    · linarith
    · exact h0
  · exact min_le_right _ _

/-- C9: a text containing an authority term while matching no suspicion
pattern scores exactly the authority bonus 0.3. -/
theorem C9_authority_bonus_only (text : String)
    (hauth : (authorities.any fun auth => strIn auth (pyLower text)) = true)
    (hpat : ∀ pw ∈ scam_patterns, patternMatched (pyLower text) pw.1 = false) :
    analyze_text_patterns text = 0.3 := by
  simp only [analyze_text_patterns]
  rw [foldl_scoreStep_none (pyLower text) scam_patterns hpat 0, if_pos hauth]
  norm_num

theorem C9_authority_bonus_only_witness :
    ((authorities.any fun auth => strIn auth (pyLower "hello fbi")) = true) ∧
      (∀ pw ∈ scam_patterns, patternMatched (pyLower "hello fbi") pw.1 = false) ∧
      analyze_text_patterns "hello fbi" = 0.3 :=
  ⟨by decide, by decide, C9_authority_bonus_only "hello fbi" (by decide) (by decide)⟩

/-- C10: any text whose lowercased form contains the substring irs scores
exactly 1.0, because the irs pattern (0.8) and the irs authority bonus (0.3)
both fire and the sum is clamped at 1.0. -/
theorem C10_irs_substring_clamps_to_one (text : String)
    (h : strIn "irs" (pyLower text) = true) :
    analyze_text_patterns text = 1 := by
  have hmatch : patternMatched (pyLower text) "irs" = true := by
    unfold patternMatched
    have hrepl : pyReplace "irs" ".*" " " = "irs" := by decide
    rw [hrepl, h, Bool.true_or]
  have hmem : ("irs", (0.8 : ℚ)) ∈ scam_patterns := by simp [scam_patterns]
  have hfold : (0:ℚ) + 0.8 ≤ scam_patterns.foldl (scoreStep (pyLower text)) 0 :=
    foldl_scoreStep_mem (pyLower text) scam_patterns scam_patterns_weights_nonneg
      "irs" 0.8 hmem hmatch 0
  have hauth : (authorities.any fun auth => strIn auth (pyLower text)) = true := by
    have hmem2 : "irs" ∈ authorities := by simp [authorities]
    exact List.any_eq_true.mpr ⟨"irs", hmem2, h⟩
  simp only [analyze_text_patterns]
  rw [if_pos hauth]
  apply min_eq_right
  linarith

theorem C10_irs_substring_clamps_to_one_witness :
    strIn "irs" (pyLower "first") = true ∧ analyze_text_patterns "first" = 1 :=
  ⟨by decide, C10_irs_substring_clamps_to_one "first" (by decide)⟩

/-- Numeric environment: the unseeded Gaussian draw streams of
`np.random.normal` (standard-normal samples, one stream per call site) and
the transcendental primitives `np.sin`, `np.exp` / the exponential used by
`torch.softmax`, and `np.pi`, all abstracted as parameters so the embedding
stays executable while preserving every arithmetic operation of the source. -/
structure Env where
  gauss1 : ℕ → ℚ
  gauss2 : ℕ → ℚ
  sinF : ℚ → ℚ
  expF : ℚ → ℚ
  piF : ℚ

/-- `AASISTBridge.generate_synthetic_audio_from_text` (source lines 172-205):
a 32000-sample waveform (2 seconds at 16kHz); scam-like texts get noisier
audio with a decaying 100 Hz artifact, others a calm 0.5 Hz variation.
`np.random.normal(0, sigma, n)` at index `i` is modelled as `sigma`
times a standard-normal draw; `np.linspace(0, 2, n)` at index `i` is
`2 * i / (n - 1)`. -/
def generate_synthetic_audio_from_text (env : Env) (text : String) : List ℚ :=
  let audio_length : ℕ := 32000
  let scam_keywords : List String :=
    ["microsoft", "virus", "irs", "tax", "police", "bank", "urgent", "immediately"]
  let scam_score :=
    (scam_keywords.filter fun keyword => strIn (pyLower keyword) (pyLower text)).length
  if scam_score > 0 then
    (List.range audio_length).map fun (i : ℕ) =>
      let t : ℚ := 2 * (i : ℚ) / ((audio_length : ℚ) - 1)
      let base_variance : ℚ := 0.3
      let base_audio : ℚ := base_variance * env.gauss1 i
      let artifacts : ℚ := 0.1 * env.sinF (2 * env.piF * 100 * t) * env.expF (-t * 2)
      let high_freq_noise : ℚ := 0.05 * env.gauss2 i
      base_audio + artifacts + high_freq_noise
  else
    (List.range audio_length).map fun (i : ℕ) =>
      let t : ℚ := 2 * (i : ℚ) / ((audio_length : ℚ) - 1)
      let base_variance : ℚ := 0.15
      let base_audio : ℚ := base_variance * env.gauss1 i
      let natural_variation : ℚ := 0.05 * env.sinF (2 * env.piF * 0.5 * t)
      base_audio + natural_variation

/-- `torch.var(x, dim=1)` for one row: the unbiased sample variance with
divisor `n - 1` (torch's default correction); division by zero (`n ≤ 1`,
where torch would produce NaN) yields 0 under rational division. -/
def torchVar (xs : List ℚ) : ℚ :=
  let n : ℚ := xs.length
  let mean := xs.sum / n
  (xs.map fun x => (x - mean) ^ 2).sum / (n - 1)

/-- `MockAASISTModel.__call__` (source lines 35-52) for one waveform,
returning the `(bonafide_logit, spoof_logit)` pair that the source stacks
into `mock_logits`.  `torch.clamp(x, lo, hi)` is `min(max(x, lo), hi)`.
The random `mock_features` tensor is discarded by the only caller
(`_, output = self.model(...)`) and is not modelled. -/
def MockAASISTModel_call (audio : List ℚ) : ℚ × ℚ :=
  let variance := torchVar audio
  let spoof_logit := min (max (variance * 5 - 2) (-2)) 3
  let bonafide_logit := -spoof_logit * 0.8
  (bonafide_logit, spoof_logit)

/-- The clamp formula as the spec writes it, stated for comparison with the
source's `torch.clamp` embedding. -/
def clampSpec (x lo hi : ℚ) : ℚ :=
  max lo (min x hi)

/-- Two-class `F.softmax` over logits `(a, b)`, with the exponential
abstracted as a parameter `e`. -/
def softmax2 (e : ℚ → ℚ) (a b : ℚ) : ℚ × ℚ :=
  (e a / (e a + e b), e b / (e a + e b))

/-- The JSON-shaped result record of `AASISTBridge.detect_deepfake`; fields
absent from a given Python dict are `none`. -/
structure DetectionResult where
  is_deepfake : Bool
  confidence : ℚ
  method : String
  audio_spoof_prob : Option ℚ
  audio_bonafide_prob : Option ℚ
  text_suspicion : Option ℚ
  model_type : Option String
  error : Option String

/-- Adapter state after `AASISTBridge.__init__`: the `model_loaded` and
`use_mock` flags and the installed classifier (`none` models Python's
initial `self.model = None`). -/
structure BridgeState where
  model_loaded : Bool
  use_mock : Bool
  model : Option (List ℚ → ℚ × ℚ)

/-- `AASISTBridge.__init__` with no model path (source lines 55-75): with the
torch capability present, `load_mock_model` installs the mock classifier and
sets both flags; without it, `load_mock_model` returns early and the state
keeps its initial `False` flags and `None` model. -/
def AASISTBridge_init_no_model_path (torch_available : Bool) : BridgeState :=
  if torch_available then
    { model_loaded := true, use_mock := true, model := some MockAASISTModel_call }
  else
    { model_loaded := false, use_mock := false, model := none }

/-- `AASISTBridge.detect_deepfake` (source lines 115-170).  The classifier
held in the state abstracts `self.model` (the mock, or the opaque real
network).  The unreachable `model_loaded ∧ model = None` combination mirrors
Python: calling `None` raises, and the `except` clause converts it into the
`inference_error` result (message abstracted). -/
def detect_deepfake (st : BridgeState) (env : Env) (text_context : String) :
    DetectionResult :=
  if !st.model_loaded then
    { is_deepfake := false, confidence := 0, method := "model_not_loaded",
      audio_spoof_prob := none, audio_bonafide_prob := none,
      text_suspicion := none, model_type := none,
      error := some "AASIST model not loaded" }
  else
    match st.model with
    | none =>
      { is_deepfake := false, confidence := 0, method := "inference_error",
        audio_spoof_prob := none, audio_bonafide_prob := none,
        text_suspicion := none, model_type := none,
        error := some "TypeError" }
    | some m =>
      let audio_data := generate_synthetic_audio_from_text env text_context
      let logits := m audio_data
      let probabilities := softmax2 env.expF logits.1 logits.2
      let spoof_prob := probabilities.2
      let bonafide_prob := probabilities.1
      let text_suspicion := analyze_text_patterns text_context
      let combined_confidence := fuseConfidence spoof_prob text_suspicion
      let method :=
        (if st.use_mock then "aasist_mock_model" else "aasist_neural_network")
          ++ "_with_text_analysis"
      { is_deepfake := fuseVerdict combined_confidence,
        confidence := combined_confidence,
        method := method,
        audio_spoof_prob := some spoof_prob,
        audio_bonafide_prob := some bonafide_prob,
        text_suspicion := some text_suspicion,
        model_type := some (if st.use_mock then "mock" else "real"),
        error := none }

/-- C5: the synthetic-signal generator returns exactly 32000 samples for
every text and every draw of the random/transcendental environment,
whichever branch is taken. -/
theorem C5_generate_length (env : Env) (text : String) :
    (generate_synthetic_audio_from_text env text).length = 32000 := by
  simp only [generate_synthetic_audio_from_text]
  split <;> simp

/-- For `lo ≤ hi`, clamping via `min (max x lo) hi` (the `torch.clamp`
order) agrees with the spec's `max lo (min x hi)`. -/
lemma min_max_clamp_comm (x lo hi : ℚ) (h : lo ≤ hi) :
    min (max x lo) hi = max lo (min x hi) := by
  rcases le_total x lo with h1 | h1
  · rw [max_eq_right h1, min_eq_left h, min_eq_left (le_trans h1 h), max_eq_left h1]
  · rw [max_eq_left h1, max_eq_right (le_min h1 h)]

/-- C6: the substitute classifier's logits satisfy
`spoof_logit = clamp(variance * 5 - 2, -2, 3)` and
`bonafide_logit = -0.8 * spoof_logit`, a deterministic function of the
waveform's variance. -/
theorem C6_mock_logits (audio : List ℚ) :
    (MockAASISTModel_call audio).2 = clampSpec (torchVar audio * 5 - 2) (-2) 3 ∧
      (MockAASISTModel_call audio).1 = -0.8 * (MockAASISTModel_call audio).2 := by
  constructor
  · simp only [MockAASISTModel_call, clampSpec]
    exact min_max_clamp_comm (torchVar audio * 5 - 2) (-2) 3 (by norm_num)
  · simp only [MockAASISTModel_call]
    ring

/-- C7: when the model is not loaded (torch capability absent), detection
short-circuits with verdict false, confidence 0.0, method
`model_not_loaded` and an error message; no inference fields are produced. -/
theorem C7_not_loaded_short_circuit (st : BridgeState) (env : Env)
    (text : String) (h : st.model_loaded = false) :
    detect_deepfake st env text =
      { is_deepfake := false, confidence := 0, method := "model_not_loaded",
        audio_spoof_prob := none, audio_bonafide_prob := none,
        text_suspicion := none, model_type := none,
        error := some "AASIST model not loaded" } := by
  simp [detect_deepfake, h]

theorem C7_not_loaded_short_circuit_witness :
    (AASISTBridge_init_no_model_path false).model_loaded = false ∧
      detect_deepfake (AASISTBridge_init_no_model_path false)
          ⟨fun _ => 0, fun _ => 0, fun _ => 0, fun _ => 0, 0⟩ "" =
        { is_deepfake := false, confidence := 0, method := "model_not_loaded",
          audio_spoof_prob := none, audio_bonafide_prob := none,
          text_suspicion := none, model_type := none,
          error := some "AASIST model not loaded" } :=
  ⟨rfl, C7_not_loaded_short_circuit (AASISTBridge_init_no_model_path false)
    ⟨fun _ => 0, fun _ => 0, fun _ => 0, fun _ => 0, 0⟩ "" rfl⟩

/-- C3 as stated is false on the code: a detection run on an adapter built
with no model path reports `model_type = "mock"`, not `"substitute"`. -/
theorem C3_counterexample :
    (detect_deepfake (AASISTBridge_init_no_model_path true)
        ⟨fun _ => 0, fun _ => 0, fun _ => 0, fun _ => 0, 0⟩ "").model_type ≠
      some "substitute" := by
  simp [detect_deepfake, AASISTBridge_init_no_model_path]

/-- C3 (amended): on an adapter constructed with no model path (mock
substitute classifier in use), every detection result has
`model_type = "mock"` — the code's tag for the substitute classifier — and
a method tag ending with `_with_text_analysis`. -/
theorem C3_amended_mock_type_and_method_suffix (env : Env) (text : String) :
    (detect_deepfake (AASISTBridge_init_no_model_path true) env text).model_type =
        some "mock" ∧
      endsWithStr
        (detect_deepfake (AASISTBridge_init_no_model_path true) env text).method
        "_with_text_analysis" = true :=
  ⟨rfl, rfl⟩

/-- Softmax probabilities over two logits sum to 1 whenever the modelled
exponential is positive everywhere (as the real exponential is). -/
lemma softmax2_sum_one (e : ℚ → ℚ) (he : ∀ x, 0 < e x) (a b : ℚ) :
    (softmax2 e a b).1 + (softmax2 e a b).2 = 1 := by
  have hne : e a + e b ≠ 0 := (add_pos (he a) (he b)).ne'
  simp only [softmax2]
  rw [div_add_div_same, div_self hne]

/-- C8: every successful detection exposes `audio_bonafide_prob` and
`audio_spoof_prob` as the softmax normalization of the classifier's two
logits over the generated waveform, and the two probabilities sum to 1. -/
theorem C8_softmax_normalization (st : BridgeState) (env : Env) (text : String)
    (m : List ℚ → ℚ × ℚ) (hl : st.model_loaded = true) (hm : st.model = some m)
    (he : ∀ x, 0 < env.expF x) :
    (detect_deepfake st env text).audio_bonafide_prob =
        some (softmax2 env.expF (m (generate_synthetic_audio_from_text env text)).1
          (m (generate_synthetic_audio_from_text env text)).2).1 ∧
      (detect_deepfake st env text).audio_spoof_prob =
        some (softmax2 env.expF (m (generate_synthetic_audio_from_text env text)).1
          (m (generate_synthetic_audio_from_text env text)).2).2 ∧
      (softmax2 env.expF (m (generate_synthetic_audio_from_text env text)).1
          (m (generate_synthetic_audio_from_text env text)).2).1 +
        (softmax2 env.expF (m (generate_synthetic_audio_from_text env text)).1
          (m (generate_synthetic_audio_from_text env text)).2).2 = 1 := by
  refine ⟨?_, ?_, softmax2_sum_one env.expF he _ _⟩
  · simp [detect_deepfake, hl, hm]
  · simp [detect_deepfake, hl, hm]

theorem C8_softmax_normalization_witness :
    ((⟨true, true, some MockAASISTModel_call⟩ : BridgeState).model_loaded = true) ∧
      ((⟨true, true, some MockAASISTModel_call⟩ : BridgeState).model =
        some MockAASISTModel_call) ∧
      (∀ x : ℚ, 0 < (⟨fun _ => 0, fun _ => 0, fun _ => 0, fun _ => 1, 0⟩ : Env).expF x) ∧
      ((detect_deepfake ⟨true, true, some MockAASISTModel_call⟩
            ⟨fun _ => 0, fun _ => 0, fun _ => 0, fun _ => 1, 0⟩ "").audio_bonafide_prob =
          some (softmax2 (⟨fun _ => 0, fun _ => 0, fun _ => 0, fun _ => 1, 0⟩ : Env).expF
            (MockAASISTModel_call (generate_synthetic_audio_from_text
              ⟨fun _ => 0, fun _ => 0, fun _ => 0, fun _ => 1, 0⟩ "")).1
            (MockAASISTModel_call (generate_synthetic_audio_from_text
              ⟨fun _ => 0, fun _ => 0, fun _ => 0, fun _ => 1, 0⟩ "")).2).1 ∧
        (detect_deepfake ⟨true, true, some MockAASISTModel_call⟩
            ⟨fun _ => 0, fun _ => 0, fun _ => 0, fun _ => 1, 0⟩ "").audio_spoof_prob =
          some (softmax2 (⟨fun _ => 0, fun _ => 0, fun _ => 0, fun _ => 1, 0⟩ : Env).expF
            (MockAASISTModel_call (generate_synthetic_audio_from_text
              ⟨fun _ => 0, fun _ => 0, fun _ => 0, fun _ => 1, 0⟩ "")).1
            (MockAASISTModel_call (generate_synthetic_audio_from_text
              ⟨fun _ => 0, fun _ => 0, fun _ => 0, fun _ => 1, 0⟩ "")).2).2 ∧
        (softmax2 (⟨fun _ => 0, fun _ => 0, fun _ => 0, fun _ => 1, 0⟩ : Env).expF
            (MockAASISTModel_call (generate_synthetic_audio_from_text
              ⟨fun _ => 0, fun _ => 0, fun _ => 0, fun _ => 1, 0⟩ "")).1
            (MockAASISTModel_call (generate_synthetic_audio_from_text
              ⟨fun _ => 0, fun _ => 0, fun _ => 0, fun _ => 1, 0⟩ "")).2).1 +
          (softmax2 (⟨fun _ => 0, fun _ => 0, fun _ => 0, fun _ => 1, 0⟩ : Env).expF
            (MockAASISTModel_call (generate_synthetic_audio_from_text
              ⟨fun _ => 0, fun _ => 0, fun _ => 0, fun _ => 1, 0⟩ "")).1
            (MockAASISTModel_call (generate_synthetic_audio_from_text
              ⟨fun _ => 0, fun _ => 0, fun _ => 0, fun _ => 1, 0⟩ "")).2).2 = 1) :=
  ⟨rfl, rfl, fun _ => one_pos,
    C8_softmax_normalization ⟨true, true, some MockAASISTModel_call⟩
      ⟨fun _ => 0, fun _ => 0, fun _ => 0, fun _ => 1, 0⟩ "" MockAASISTModel_call
      rfl rfl (fun _ => one_pos)⟩
